import Mathlib

/-!
Shallow embedding of the ASMB8 iKVM web viewer (`main.go`).

The program is an HTTP server exposing one X11 window as an MJPEG stream:
`findWindow` shells out to `xdotool` to resolve the configured window-name
filter to a window id; `streamWindow` queries `xwininfo` for the window
geometry, parses it with `fmt.Sscanf`-style scanning, launches an `ffmpeg`
capture subprocess and relays its stdout to the HTTP response in a loop with
a 64 KiB buffer, flushing after every write, with a deferred kill/wait that
runs when the handler returns.

External commands and the network are modelled by an environment `Env`
recording the outcome of each external interaction; the handler is a pure
function of that environment producing an observable `HandlerResult`.
-/

set_option maxHeartbeats 1000000

/-- Size of the relay buffer: `buffer := make([]byte, 65536)`. -/
def bufSize : Nat := 65536

/-! ### Character-list string utilities (Go `strings` package semantics) -/

/-- `startsWithChars s pat` is true when `pat` is a prefix of `s`. -/
def startsWithChars : List Char → List Char → Bool
  | _, [] => true
  | [], _ :: _ => false
  | c :: cs, p :: ps => decide (c = p) && startsWithChars cs ps

/-- Go `strings.Contains(s, pat)`: `pat` occurs contiguously in `s`. -/
def containsChars (s pat : List Char) : Bool :=
  match s with
  | [] => pat.isEmpty
  | _ :: rest => startsWithChars s pat || containsChars rest pat

/-- Go `strings.TrimSpace`: drop leading and trailing whitespace. -/
def trimChars (s : List Char) : List Char :=
  ((s.dropWhile Char.isWhitespace).reverse.dropWhile Char.isWhitespace).reverse

/-- Go `strings.Split(s, "\n")`: split on every newline; yields one more
piece than there are newlines, never the empty list. -/
def splitOnNl : List Char → List (List Char)
  | [] => [[]]
  | c :: rest =>
    let r := splitOnNl rest
    if c = '\n' then [] :: r
    else
      match r with
      | [] => [[c]]
      | h :: t => (c :: h) :: t

/-! ### `fmt.Sscanf` model (the fragment used: a literal prefix then `%d`)

In Go's scanning functions a space in the format matches any run of spaces
in the input (including none), other literal characters must match exactly,
and `%d` skips leading spaces then reads an optional sign and at least one
digit, failing otherwise.  On failure the destination variable keeps its
previous value. -/

def dropSpaces (s : List Char) : List Char := s.dropWhile (fun c => c = ' ')

/-- Match the literal part of a format string against input, with Go's
flexible-space rule; returns the remaining input on success. -/
def matchLit : List Char → List Char → Option (List Char)
  | [], s => some s
  | c :: fs, s =>
    if c = ' ' then matchLit fs (dropSpaces s)
    else
      match s with
      | [] => none
      | d :: ds => if d = c then matchLit fs ds else none

def digitsToNat (ds : List Char) : Nat :=
  ds.foldl (fun a c => a * 10 + (c.toNat - 48)) 0

/-- The `%d` verb: skip spaces, optional sign, at least one digit. -/
def scanInt (s : List Char) : Option Int :=
  match dropSpaces s with
  | '-' :: rest =>
    let ds := rest.takeWhile Char.isDigit
    if ds.isEmpty then none else some (-(digitsToNat ds : Int))
  | '+' :: rest =>
    let ds := rest.takeWhile Char.isDigit
    if ds.isEmpty then none else some ((digitsToNat ds : Int))
  | s' =>
    let ds := s'.takeWhile Char.isDigit
    if ds.isEmpty then none else some ((digitsToNat ds : Int))

/-- `fmt.Sscanf(line, fmtPre ++ "%d", &v)` restricted to one `%d` verb. -/
def sscanfInt (fmtPre : String) (line : List Char) : Option Int :=
  match matchLit fmtPre.data line with
  | none => none
  | some rest => scanInt rest

/-! ### Geometry parsing (`streamWindow`, lines 104–123 of `main.go`) -/

/-- Parsed window geometry; all four fields start at zero, exactly like the
Go locals `var x, y, width, height int`. -/
structure Geom where
  x : Int := 0
  y : Int := 0
  width : Int := 0
  height : Int := 0
deriving DecidableEq, Repr

/-- One iteration of the parsing loop over the `xwininfo` output lines:
the `strings.Contains` / `fmt.Sscanf` else-if chain. -/
def scanLine (line : List Char) (g : Geom) : Geom :=
  if containsChars line ("Absolute upper-left X:").data then
    { g with x := (sscanfInt "  Absolute upper-left X:  " line).getD g.x }
  else if containsChars line ("Absolute upper-left Y:").data then
    { g with y := (sscanfInt "  Absolute upper-left Y:  " line).getD g.y }
  else if containsChars line ("Width:").data then
    { g with width := (sscanfInt "  Width: " line).getD g.width }
  else if containsChars line ("Height:").data then
    { g with height := (sscanfInt "  Height: " line).getD g.height }
  else g

/-- Parse the whole `xwininfo` output: split on newlines and fold the
per-line scanner over an all-zero initial geometry. -/
def parseGeometry (output : String) : Geom :=
  (splitOnNl output.data).foldl (fun g line => scanLine line g) {}

/-! ### `findWindow` (lines 235–249 of `main.go`) -/

/-- The error value built by `fmt.Errorf("no window matching '%s' found", windowName)`;
the same value is returned on command failure and on empty output. -/
def notFoundMsg (windowName : String) : String :=
  "no window matching '" ++ windowName ++ "' found"

/-- `findWindow`: `xdotool` is the outcome of `cmd.Output()` for the
`xdotool search` shell command (error, or its stdout).  The Go code fails
when the command errs or its output is empty, then takes the first line of
the trimmed output, failing when it is empty. -/
def findWindow (windowName : String) (xdotool : Except Unit String) :
    Except String String :=
  match xdotool with
  | Except.error _ => Except.error (notFoundMsg windowName)
  | Except.ok out =>
    if out.data.isEmpty then Except.error (notFoundMsg windowName)
    else
      match splitOnNl (trimChars out.data) with
      | [] => Except.error (notFoundMsg windowName)
      | wid :: _ =>
        if wid.isEmpty then Except.error (notFoundMsg windowName)
        else Except.ok (String.mk wid)

/-! ### HTTP headers and `http.Error` -/

/-- A response header map, `w.Header().Set` semantics: setting a key
replaces any previous value. -/
def setHeader (hs : List (String × String)) (k v : String) :
    List (String × String) :=
  (k, v) :: hs.filter (fun p => p.1 != k)

def getHeader (hs : List (String × String)) (k : String) : Option String :=
  (hs.find? (fun p => p.1 == k)).map Prod.snd

/-- The four headers `streamWindow` sets before anything else runs. -/
def streamHeaders : List (String × String) :=
  setHeader
    (setHeader
      (setHeader
        (setHeader [] "Content-Type" "multipart/x-mixed-replace; boundary=ffmpeg")
        "Cache-Control" "no-cache, no-store, must-revalidate")
      "Connection" "close")
    "Pragma" "no-cache"

/-- Header effect of Go's `http.Error`: delete `Content-Length`, set
`Content-Type: text/plain; charset=utf-8` and `X-Content-Type-Options: nosniff`. -/
def errHeaders (hs : List (String × String)) : List (String × String) :=
  setHeader
    (setHeader (hs.filter (fun p => p.1 != "Content-Length"))
      "Content-Type" "text/plain; charset=utf-8")
    "X-Content-Type-Options" "nosniff"

/-! ### The relay loop (lines 181–202 of `main.go`) -/

/-- One `stdout.Read(buffer)` outcome supplied by the environment: the bytes
the pipe makes available (the read returns at most `bufSize` of them) and
whether the call reports an error (including end-of-stream). -/
inductive ReadEv
  | ok (data : List Nat)
  | fail (data : List Nat)
deriving DecidableEq, Repr

/-- Why the relay loop exited. -/
inductive ExitCause
  | readErr
  | writeErr
deriving DecidableEq, Repr

/-- Observable outcome of the relay loop: the chunks successfully written to
the client in order, the number of flushes, and whether (and why) the loop
exited; `none` means the supplied event trace ended with the loop still
running. -/
structure RelayResult where
  sentChunks : List (List Nat)
  flushes : Nat
  exited : Option ExitCause
deriving DecidableEq, Repr

/-- Bookkeeping of one successful `w.Write(buffer[:n])` followed by the
conditional `flusher.Flush()`. -/
def pushChunk (hasFlusher : Bool) (c : List Nat) (r : RelayResult) : RelayResult :=
  ⟨c :: r.sentChunks, (if hasFlusher then 1 else 0) + r.flushes, r.exited⟩

/-- The relay loop.  Each iteration reads (at most `bufSize` bytes); a read
error breaks out of the loop before any write; a nonempty chunk is written,
a write error breaks, a successful write is followed by a flush when the
writer supports flushing (`hasFlusher`); an empty error-free read just loops. -/
def relayLoop (hasFlusher : Bool) : List ReadEv → List Bool → RelayResult
  | [], _ => ⟨[], 0, none⟩
  | ReadEv.fail _ :: _, _ => ⟨[], 0, some ExitCause.readErr⟩
  | ReadEv.ok d :: rest, ws =>
    if (d.take bufSize).length = 0 then
      relayLoop hasFlusher rest ws
    else
      match ws with
      | [] => pushChunk hasFlusher (d.take bufSize) (relayLoop hasFlusher rest [])
      | werr :: ws2 =>
        if werr then ⟨[], 0, some ExitCause.writeErr⟩
        else pushChunk hasFlusher (d.take bufSize) (relayLoop hasFlusher rest ws2)

/-- The bytes the subprocess's stdout delivers along a read trace: every
chunk actually returned by a read, including the one accompanying the
failing read. -/
def readOutput : List ReadEv → List Nat
  | [] => []
  | ReadEv.ok d :: rest => d.take bufSize ++ readOutput rest
  | ReadEv.fail d :: _ => d.take bufSize

/-! ### The stream handler (`streamWindow`, lines 80–203 of `main.go`) -/

/-- Environment of one `streamWindow` execution: outcomes of every external
interaction, in program order. -/
structure Env where
  /-- Outcome of the `xdotool search` command inside `findWindow`. -/
  xdotool : Except Unit String
  /-- Outcome of `posCmd.Output()` (the `xwininfo` shell command). -/
  xwininfo : Except Unit String
  /-- Whether `cmd.StderrPipe()` succeeds. -/
  stderrPipeOk : Bool
  /-- Whether `cmd.StdoutPipe()` succeeds. -/
  stdoutPipeOk : Bool
  /-- Whether `cmd.Start()` succeeds. -/
  startOk : Bool
  /-- Trace of `stdout.Read` outcomes. -/
  reads : List ReadEv
  /-- Per-write outcomes of `w.Write` (`true` = error); an exhausted list
  means further writes succeed. -/
  writes : List Bool
  /-- Whether the `http.Flusher` type assertion on `w` succeeds. -/
  hasFlusher : Bool
deriving Repr

/-- Observable outcome of one `streamWindow` execution. -/
structure HandlerResult where
  headers : List (String × String)
  status : Nat
  /-- Body written by `http.Error`, when an error path was taken. -/
  errorBody : Option String
  /-- Geometry `(x, y, width, height)` with which `ffmpeg` was started, when
  `cmd.Start()` succeeded. -/
  launched : Option (Int × Int × Int × Int)
  /-- Argument list of the `ffmpeg` invocation, when started. -/
  argv : Option (List String)
  relay : Option RelayResult
  /-- Whether the deferred `cmd.Process.Kill()` ran. -/
  killed : Bool
  /-- Whether the deferred `cmd.Wait()` ran. -/
  waited : Bool
  /-- Whether the handler returned (false only when the relay trace was
  exhausted with the loop still running). -/
  returned : Bool
deriving DecidableEq, Repr

/-- Result of an error path: `http.Error(w, msg, 500)` then return. -/
def errorResult (hs : List (String × String)) (msg : String) : HandlerResult :=
  { headers := errHeaders hs
    status := 500
    errorBody := some (msg ++ "\n")
    launched := none
    argv := none
    relay := none
    killed := false
    waited := false
    returned := true }

/-- The `ffmpeg` argument list built at lines 126–136 of `main.go`. -/
def ffmpegArgs (x y width height : Int) : List String :=
  ["-f", "x11grab",
   "-video_size", toString width ++ "x" ++ toString height,
   "-framerate", "60",
   "-i", ":99+" ++ toString x ++ "," ++ toString y,
   "-c:v", "mjpeg",
   "-q:v", "1",
   "-huffman", "optimal",
   "-pix_fmt", "yuvj444p",
   "-f", "mpjpeg",
   "-"]

/-- Result of the successful path: stream with the parsed geometry `g`,
then run the deferred kill/wait when the relay loop exits. -/
def successResult (env : Env) (g : Geom) : HandlerResult :=
  let r := relayLoop env.hasFlusher env.reads env.writes
  { headers := streamHeaders
    status := 200
    errorBody := none
    launched := some (g.x, g.y, g.width, g.height)
    argv := some (ffmpegArgs g.x g.y g.width g.height)
    relay := some r
    killed := r.exited.isSome
    waited := r.exited.isSome
    returned := r.exited.isSome }

/-- The stream handler: set the four stream headers, locate the window,
query and parse geometry, reject zero width/height, create pipes, start
`ffmpeg`, run the relay loop; the deferred kill/wait runs when (and only
when) the handler returns after a successful start. -/
def streamWindow (windowName : String) (env : Env) : HandlerResult :=
  let hs := streamHeaders
  match findWindow windowName env.xdotool with
  | Except.error _ => errorResult hs "Window not found"
  | Except.ok _ =>
    match env.xwininfo with
    | Except.error _ => errorResult hs "Failed to get window position"
    | Except.ok posOutput =>
      let g := parseGeometry posOutput
      if g.width = 0 ∨ g.height = 0 then
        errorResult hs "Failed to get window dimensions"
      else if env.stderrPipeOk = false then
        errorResult hs "Stream error"
      else if env.stdoutPipeOk = false then
        errorResult hs "Stream error"
      else if env.startOk = false then
        errorResult hs "Stream error"
      else
        successResult env g

/-! ### Routing (`serveWindowStream`, lines 66–78 of `main.go`) -/

/-- What `serveWindowStream` does with a request path. -/
inductive RouteAction
  | stream
  | viewer
deriving DecidableEq, Repr

/-- `serveWindowStream` routes on the path alone: `"/stream"` runs the
streaming pipeline, every other path falls through to the template. -/
def route (path : String) : RouteAction :=
  if path = "/stream" then RouteAction.stream else RouteAction.viewer

/-! ### Helper lemmas -/

/-- Appending the same list on the left preserves the prefix relation. -/
theorem append_prefix_mono {α : Type} (x : List α) {l₁ l₂ : List α}
    (h : l₁ <+: l₂) : x ++ l₁ <+: x ++ l₂ := by
  obtain ⟨t, ht⟩ := h
  exact ⟨t, by rw [List.append_assoc, ht]⟩

/-- Every chunk the relay writes is at most one buffer long. -/
theorem relayLoop_sent_le (f : Bool) (reads : List ReadEv) (ws : List Bool) :
    ∀ c ∈ (relayLoop f reads ws).sentChunks, c.length ≤ bufSize := by
  induction reads generalizing ws with
  | nil => simp [relayLoop]
  | cons ev rest ih =>
    cases ev with
    | fail d => simp [relayLoop]
    | ok d =>
      by_cases hc : (d.take bufSize).length = 0
      · simpa [relayLoop, hc] using ih ws
      · cases ws with
        | nil =>
          simp only [relayLoop, if_neg hc, pushChunk]
          intro c hmem
          rcases List.mem_cons.mp hmem with rfl | hmem
          · exact List.length_take_le bufSize d
          · exact ih [] c hmem
        | cons werr ws2 =>
          cases werr with
          | true =>
            simp only [relayLoop, if_neg hc]
            simp
          | false =>
            simp only [relayLoop, if_neg hc, pushChunk]
            intro c hmem
            rcases List.mem_cons.mp hmem with rfl | hmem
            · exact List.length_take_le bufSize d
            · exact ih ws2 c hmem

/-- The bytes successfully delivered to the client are a prefix of the bytes
the subprocess's stdout produced. -/
theorem relayLoop_sent_prefix_of_output (f : Bool) (reads : List ReadEv) (ws : List Bool) :
    (relayLoop f reads ws).sentChunks.flatten <+: readOutput reads := by
  induction reads generalizing ws with
  | nil => simp [relayLoop, readOutput]
  | cons ev rest ih =>
    cases ev with
    | fail d => simp [relayLoop, readOutput]
    | ok d =>
      by_cases hc : (d.take bufSize).length = 0
      · have hnil : d.take bufSize = [] := List.length_eq_zero.mp hc
        simpa [relayLoop, hc, readOutput, hnil] using ih ws
      · cases ws with
        | nil =>
          simp only [relayLoop, if_neg hc, pushChunk, readOutput, List.flatten_cons]
          exact append_prefix_mono _ (ih [])
        | cons werr ws2 =>
          cases werr with
          | true =>
            simp only [relayLoop, if_neg hc]
            simp
          | false =>
            simp only [relayLoop, if_neg hc, pushChunk, readOutput, List.flatten_cons]
            exact append_prefix_mono _ (ih ws2)

/-- With a flushing writer the relay flushes exactly once per successful
write. -/
theorem relayLoop_flush_count (reads : List ReadEv) (ws : List Bool) :
    (relayLoop true reads ws).flushes = (relayLoop true reads ws).sentChunks.length := by
  induction reads generalizing ws with
  | nil => simp [relayLoop]
  | cons ev rest ih =>
    cases ev with
    | fail d => simp [relayLoop]
    | ok d =>
      by_cases hc : (d.take bufSize).length = 0
      · simpa [relayLoop, hc] using ih ws
      · cases ws with
        | nil =>
          simp only [relayLoop, if_neg hc]
          simp [pushChunk, ih [], Nat.add_comm]
        | cons werr ws2 =>
          cases werr with
          | true =>
            simp only [relayLoop, if_neg hc]
            simp
          | false =>
            simp only [relayLoop, if_neg hc]
            simp [pushChunk, ih ws2, Nat.add_comm]

/-- Every `streamWindow` execution either takes one of the error paths
(producing `errorResult streamHeaders` for some message) or takes the
success path with the parsed geometry, whose width and height are nonzero. -/
theorem streamWindow_branches (n : String) (env : Env) :
    (∃ msg, streamWindow n env = errorResult streamHeaders msg) ∨
    (∃ out, env.xwininfo = Except.ok out ∧
      (parseGeometry out).width ≠ 0 ∧ (parseGeometry out).height ≠ 0 ∧
      streamWindow n env = successResult env (parseGeometry out)) := by
  unfold streamWindow
  cases hf : findWindow n env.xdotool with
  | error e => exact Or.inl ⟨"Window not found", rfl⟩
  | ok wid =>
    cases hx : env.xwininfo with
    | error e => exact Or.inl ⟨"Failed to get window position", rfl⟩
    | ok out =>
      dsimp only
      by_cases hz : (parseGeometry out).width = 0 ∨ (parseGeometry out).height = 0
      · rw [if_pos hz]
        exact Or.inl ⟨"Failed to get window dimensions", rfl⟩
      · rw [if_neg hz]
        by_cases h4 : env.stderrPipeOk = false
        · rw [if_pos h4]
          exact Or.inl ⟨"Stream error", rfl⟩
        · rw [if_neg h4]
          by_cases h5 : env.stdoutPipeOk = false
          · rw [if_pos h5]
            exact Or.inl ⟨"Stream error", rfl⟩
          · rw [if_neg h5]
            by_cases h6 : env.startOk = false
            · rw [if_pos h6]
              exact Or.inl ⟨"Stream error", rfl⟩
            · rw [if_neg h6]
              exact Or.inr ⟨out, rfl, (not_or.mp hz).1, (not_or.mp hz).2, rfl⟩

/-! ### Concrete environments used by witnesses and counterexamples -/

/-- Environment where the `xdotool` query command itself errors. -/
def envNoMatch : Env :=
  { xdotool := Except.error ()
    xwininfo := Except.ok ""
    stderrPipeOk := true
    stdoutPipeOk := true
    startOk := true
    reads := []
    writes := []
    hasFlusher := true }

/-- Fully successful environment: one matching window, a well-formed
`xwininfo` answer, pipes and start succeed, one chunk is relayed and then
the subprocess's stdout reports end-of-stream. -/
def envSuccess : Env :=
  { xdotool := Except.ok "123\n"
    xwininfo := Except.ok
      "  Absolute upper-left X:  100\n  Absolute upper-left Y:  50\n  Width: 1280\n  Height: 720\n"
    stderrPipeOk := true
    stdoutPipeOk := true
    startOk := true
    reads := [ReadEv.ok [1], ReadEv.fail []]
    writes := [false]
    hasFlusher := true }

/-- Environment whose `xwininfo` output reports a negative width. -/
def envNegWidth : Env :=
  { xdotool := Except.ok "123\n"
    xwininfo := Except.ok "  Width: -1\n  Height: 5"
    stderrPipeOk := true
    stdoutPipeOk := true
    startOk := true
    reads := []
    writes := []
    hasFlusher := true }

/-! ### Claim theorems -/

/-- C5: `findWindow` returns the first window id in query-result order when
at least one match exists; it fails with the same not-found error both when
the query command errors and when its output is empty (including the
lone-newline output the `|| echo ''` fallback produces), so the two failure
modes are not distinguished. -/
theorem findWindow_first_match_or_notfound (n : String) :
    (findWindow n (Except.error ()) = Except.error (notFoundMsg n)) ∧
    (findWindow n (Except.ok "") = Except.error (notFoundMsg n)) ∧
    (findWindow n (Except.ok "\n") = Except.error (notFoundMsg n)) ∧
    (∀ out wid rest, out.data ≠ [] →
      splitOnNl (trimChars out.data) = wid :: rest → wid ≠ [] →
      findWindow n (Except.ok out) = Except.ok (String.mk wid)) := by
  refine ⟨rfl, rfl, rfl, ?_⟩
  intro out wid rest h1 h2 h3
  simp [findWindow, h1, h2, h3]

/-- C5 witness: on output `"12\n34"` the first id `"12"` is returned. -/
theorem findWindow_first_match_or_notfound_witness :
    findWindow "Firefox" (Except.ok "12\n34") = Except.ok (String.mk ['1', '2']) :=
  (findWindow_first_match_or_notfound "Firefox").2.2.2 "12\n34" ['1', '2'] [['3', '4']]
    (by decide) (by decide) (by decide)

/-- C2: whenever the window query yields no window (or errors), the handler
answers HTTP 500 and no capture subprocess is ever launched. -/
theorem findWindow_error_no_launch (n : String) (env : Env) (e : String)
    (h : findWindow n env.xdotool = Except.error e) :
    (streamWindow n env).status = 500 ∧ (streamWindow n env).launched = none ∧
    (streamWindow n env).relay = none := by
  unfold streamWindow
  rw [h]
  exact ⟨rfl, rfl, rfl⟩

/-- C2 witness. -/
theorem findWindow_error_no_launch_witness :
    (streamWindow "Firefox" envNoMatch).status = 500 ∧
    (streamWindow "Firefox" envNoMatch).launched = none ∧
    (streamWindow "Firefox" envNoMatch).relay = none :=
  findWindow_error_no_launch "Firefox" envNoMatch (notFoundMsg "Firefox") (by rfl)

/-- C7 counterexample: with filter `"Firefox"` and no matching window the
response body is the fixed string `"Window not found\n"`, which does not
mention the filter string. -/
theorem stream_error_body_counterexample :
    (streamWindow "Firefox" envNoMatch).status = 500 ∧
    (streamWindow "Firefox" envNoMatch).errorBody = some "Window not found\n" ∧
    containsChars ("Window not found\n").data ("Firefox").data = false :=
  ⟨rfl, rfl, by decide⟩

/-- C7 amended: when the filter matches no window the response is a
server-error status whose body is the fixed string `"Window not found"`;
the filter string appears in the server log, not in the body. -/
theorem notfound_body_fixed (n : String) (env : Env) (e : String)
    (h : findWindow n env.xdotool = Except.error e) :
    (streamWindow n env).status = 500 ∧
    (streamWindow n env).errorBody = some "Window not found\n" := by
  unfold streamWindow
  rw [h]
  exact ⟨rfl, rfl⟩

/-- C7 witness for the amended claim. -/
theorem notfound_body_fixed_witness :
    (streamWindow "Firefox" envNoMatch).status = 500 ∧
    (streamWindow "Firefox" envNoMatch).errorBody = some "Window not found\n" :=
  notfound_body_fixed "Firefox" envNoMatch (notFoundMsg "Firefox") (by rfl)

/-- C10: when a read returns a positive number of bytes together with an
error, the loop exits at once without writing those bytes: nothing is sent
in that or any later iteration and the exit cause is the read error. -/
theorem read_error_chunk_discarded (f : Bool) (d : List Nat) (rest : List ReadEv)
    (ws : List Bool) (h : 0 < d.length) :
    (relayLoop f (ReadEv.fail d :: rest) ws).sentChunks = [] ∧
    (relayLoop f (ReadEv.fail d :: rest) ws).exited = some ExitCause.readErr :=
  ⟨rfl, rfl⟩

/-- C10 witness. -/
theorem read_error_chunk_discarded_witness :
    (relayLoop true [ReadEv.fail [9]] []).sentChunks = [] ∧
    (relayLoop true [ReadEv.fail [9]] []).exited = some ExitCause.readErr :=
  read_error_chunk_discarded true [9] [] [] (by decide)

/-! ### Projection lemmas for the two result shapes -/

@[simp] theorem errorResult_headers (hs : List (String × String)) (msg : String) :
    (errorResult hs msg).headers = errHeaders hs := rfl

@[simp] theorem errorResult_status (hs : List (String × String)) (msg : String) :
    (errorResult hs msg).status = 500 := rfl

@[simp] theorem errorResult_launched (hs : List (String × String)) (msg : String) :
    (errorResult hs msg).launched = none := rfl

@[simp] theorem errorResult_relay (hs : List (String × String)) (msg : String) :
    (errorResult hs msg).relay = none := rfl

@[simp] theorem successResult_headers (env : Env) (g : Geom) :
    (successResult env g).headers = streamHeaders := rfl

@[simp] theorem successResult_status (env : Env) (g : Geom) :
    (successResult env g).status = 200 := rfl

@[simp] theorem successResult_launched (env : Env) (g : Geom) :
    (successResult env g).launched = some (g.x, g.y, g.width, g.height) := rfl

@[simp] theorem successResult_argv (env : Env) (g : Geom) :
    (successResult env g).argv = some (ffmpegArgs g.x g.y g.width g.height) := rfl

@[simp] theorem successResult_relay (env : Env) (g : Geom) :
    (successResult env g).relay =
      some (relayLoop env.hasFlusher env.reads env.writes) := rfl

@[simp] theorem successResult_killed (env : Env) (g : Geom) :
    (successResult env g).killed =
      (relayLoop env.hasFlusher env.reads env.writes).exited.isSome := rfl

@[simp] theorem successResult_waited (env : Env) (g : Geom) :
    (successResult env g).waited =
      (relayLoop env.hasFlusher env.reads env.writes).exited.isSome := rfl

@[simp] theorem successResult_returned (env : Env) (g : Geom) :
    (successResult env g).returned =
      (relayLoop env.hasFlusher env.reads env.writes).exited.isSome := rfl

/-- Environment whose `xwininfo` output reports width zero. -/
def envZeroWidth : Env :=
  { xdotool := Except.ok "123\n"
    xwininfo := Except.ok "  Width: 0\n  Height: 5"
    stderrPipeOk := true
    stdoutPipeOk := true
    startOk := true
    reads := []
    writes := []
    hasFlusher := true }

/-- C1: whenever the capture subprocess was started and the relay loop
exits for any reason, the deferred kill and wait both run and the handler
returns, so the subprocess is no longer running afterwards. -/
theorem streamWindow_teardown (n : String) (env : Env) (rr : RelayResult)
    (h1 : (streamWindow n env).relay = some rr) (h2 : rr.exited.isSome = true) :
    (streamWindow n env).killed = true ∧ (streamWindow n env).waited = true ∧
    (streamWindow n env).returned = true := by
  rcases streamWindow_branches n env with ⟨msg, hE⟩ | ⟨out, hx, hw, hh, hS⟩
  · rw [hE] at h1
    simp at h1
  · rw [hS] at h1 ⊢
    simp only [successResult_relay, Option.some.injEq] at h1
    refine ⟨?_, ?_, ?_⟩ <;> simp [h1, h2]

/-- C1 witness. -/
theorem streamWindow_teardown_witness :
    (streamWindow "Firefox" envSuccess).killed = true ∧
    (streamWindow "Firefox" envSuccess).waited = true ∧
    (streamWindow "Firefox" envSuccess).returned = true :=
  streamWindow_teardown "Firefox" envSuccess
    (relayLoop true [ReadEv.ok [1], ReadEv.fail []] [false]) (by decide) (by decide)

/-- C3 counterexample: an `xwininfo` answer reporting `Width: -1` passes the
zero check, so `ffmpeg` is launched with width `-1`, which is not positive;
the code only rejects zero width/height, not negative values. -/
theorem geometry_positive_counterexample :
    (streamWindow "Firefox" envNegWidth).launched = some (0, 0, -1, 5) ∧
    ¬(0 < (-1 : Int)) :=
  ⟨by decide, by decide⟩

/-- C3 amended: a parse yielding width 0 or height 0 makes the request fail
with HTTP 500 and no subprocess is launched; consequently any launched
geometry has width and height nonzero (not necessarily positive). -/
theorem geometry_zero_rejected :
    (∀ n env out, env.xwininfo = Except.ok out →
      ((parseGeometry out).width = 0 ∨ (parseGeometry out).height = 0) →
      (streamWindow n env).status = 500 ∧ (streamWindow n env).launched = none) ∧
    (∀ n env x y w h, (streamWindow n env).launched = some (x, y, w, h) →
      w ≠ 0 ∧ h ≠ 0) := by
  constructor
  · intro n env out hx hz
    unfold streamWindow
    cases hf : findWindow n env.xdotool with
    | error e => exact ⟨rfl, rfl⟩
    | ok wid =>
      rw [hx]
      dsimp only
      rw [if_pos hz]
      exact ⟨rfl, rfl⟩
  · intro n env x y w h hl
    rcases streamWindow_branches n env with ⟨msg, hE⟩ | ⟨out, hx, hw, hh, hS⟩
    · rw [hE] at hl
      simp at hl
    · rw [hS] at hl
      simp only [successResult_launched, Option.some.injEq, Prod.mk.injEq] at hl
      obtain ⟨h1, h2, h3, h4⟩ := hl
      exact ⟨h3 ▸ hw, h4 ▸ hh⟩

/-- C3 witness for the amended claim: width parsed as 0 is rejected. -/
theorem geometry_zero_rejected_witness :
    (streamWindow "Firefox" envZeroWidth).status = 500 ∧
    (streamWindow "Firefox" envZeroWidth).launched = none :=
  geometry_zero_rejected.1 "Firefox" envZeroWidth "  Width: 0\n  Height: 5"
    (by rfl) (by decide)

/-- C4: each iteration reads at most 65536 bytes; the bytes delivered are a
verbatim byte-level prefix of the subprocess's output; with a flushing
writer there is exactly one flush per successful write; and the loop exits
at the first read error and at the first write error. -/
theorem relay_verbatim_bounded_flushed (f : Bool) (reads : List ReadEv)
    (ws : List Bool) :
    (∀ c ∈ (relayLoop f reads ws).sentChunks, c.length ≤ bufSize) ∧
    ((relayLoop f reads ws).sentChunks.flatten <+: readOutput reads) ∧
    ((relayLoop true reads ws).flushes = (relayLoop true reads ws).sentChunks.length) ∧
    (∀ d rest ws2, relayLoop f (ReadEv.fail d :: rest) ws2 =
      ⟨[], 0, some ExitCause.readErr⟩) ∧
    (∀ d rest ws2, d ≠ [] → relayLoop f (ReadEv.ok d :: rest) (true :: ws2) =
      ⟨[], 0, some ExitCause.writeErr⟩) ∧
    (∀ d rest ws2, d ≠ [] →
      (relayLoop f (ReadEv.ok d :: rest) (false :: ws2)).sentChunks =
        d.take bufSize :: (relayLoop f rest ws2).sentChunks) := by
  refine ⟨relayLoop_sent_le f reads ws, relayLoop_sent_prefix_of_output f reads ws,
    relayLoop_flush_count reads ws, fun d rest ws2 => rfl, ?_, ?_⟩
  · intro d rest ws2 hd
    have hlen : ¬(d.take bufSize).length = 0 := by
      rcases d with _ | ⟨a, as⟩
      · exact absurd rfl hd
      · simp [bufSize, List.length_take]
    simp only [relayLoop, if_neg hlen]
    simp
  · intro d rest ws2 hd
    have hlen : ¬(d.take bufSize).length = 0 := by
      rcases d with _ | ⟨a, as⟩
      · exact absurd rfl hd
      · simp [bufSize, List.length_take]
    simp only [relayLoop, if_neg hlen, pushChunk]
    simp

/-- C4 witness: a write error stops the loop at once; a successful write
delivers exactly the bytes read. -/
theorem relay_verbatim_bounded_flushed_witness :
    (relayLoop true [ReadEv.ok [1]] [true] = ⟨[], 0, some ExitCause.writeErr⟩) ∧
    ((relayLoop true [ReadEv.ok [1], ReadEv.fail []] [false]).sentChunks =
      [1].take bufSize :: (relayLoop true [ReadEv.fail []] []).sentChunks) :=
  ⟨(relay_verbatim_bounded_flushed true [] []).2.2.2.2.1 [1] [] [] (by decide),
   (relay_verbatim_bounded_flushed true [] []).2.2.2.2.2 [1] [ReadEv.fail []] []
     (by decide)⟩

/-- C6: whenever `ffmpeg` is launched with geometry `(x, y, w, h)`, its
argument list is exactly the fixed parameter set: x11grab source
`":99+x,y"`, clip size `"wxh"`, 60 fps, MJPEG at `q=1` with optimal Huffman
coding and `yuvj444p` pixel format, `mpjpeg` container to stdout. -/
theorem launch_args_exact (n : String) (env : Env) (x y w h : Int)
    (hl : (streamWindow n env).launched = some (x, y, w, h)) :
    (streamWindow n env).argv =
      some ["-f", "x11grab",
            "-video_size", toString w ++ "x" ++ toString h,
            "-framerate", "60",
            "-i", ":99+" ++ toString x ++ "," ++ toString y,
            "-c:v", "mjpeg",
            "-q:v", "1",
            "-huffman", "optimal",
            "-pix_fmt", "yuvj444p",
            "-f", "mpjpeg",
            "-"] := by
  rcases streamWindow_branches n env with ⟨msg, hE⟩ | ⟨out, hx, hw, hh, hS⟩
  · rw [hE] at hl
    simp at hl
  · rw [hS] at hl ⊢
    simp only [successResult_launched, Option.some.injEq, Prod.mk.injEq] at hl
    obtain ⟨h1, h2, h3, h4⟩ := hl
    subst h1
    subst h2
    subst h3
    subst h4
    simp [ffmpegArgs]

/-- C6 witness: the concrete invocation for geometry (100, 50, 1280, 720). -/
theorem launch_args_exact_witness :
    (streamWindow "Firefox" envSuccess).argv =
      some ["-f", "x11grab", "-video_size", "1280x720", "-framerate", "60",
            "-i", ":99+100,50", "-c:v", "mjpeg", "-q:v", "1", "-huffman",
            "optimal", "-pix_fmt", "yuvj444p", "-f", "mpjpeg", "-"] := by
  have h := launch_args_exact "Firefox" envSuccess 100 50 1280 720 (by decide)
  exact h.trans (by decide)

/-- C8: requests are routed by path only — `"/stream"` runs the streaming
pipeline and every other path is served the viewer page; the stream
response carries the multipart content type with its literal boundary
token, the no-cache cache-control value and `Connection: close`. -/
theorem routing_and_stream_headers :
    (route "/stream" = RouteAction.stream) ∧
    (∀ p, p ≠ "/stream" → route p = RouteAction.viewer) ∧
    (∀ n env, getHeader (streamWindow n env).headers "Cache-Control" =
        some "no-cache, no-store, must-revalidate" ∧
      getHeader (streamWindow n env).headers "Connection" = some "close") ∧
    (∀ n env, (streamWindow n env).status = 200 →
      getHeader (streamWindow n env).headers "Content-Type" =
        some "multipart/x-mixed-replace; boundary=ffmpeg") := by
  refine ⟨rfl, ?_, ?_, ?_⟩
  · intro p hp
    simp [route, hp]
  · intro n env
    rcases streamWindow_branches n env with ⟨msg, hE⟩ | ⟨out, hx, hw, hh, hS⟩
    · rw [hE]
      simp only [errorResult_headers]
      exact ⟨by decide, by decide⟩
    · rw [hS]
      simp only [successResult_headers]
      exact ⟨by decide, by decide⟩
  · intro n env h200
    rcases streamWindow_branches n env with ⟨msg, hE⟩ | ⟨out, hx, hw, hh, hS⟩
    · rw [hE] at h200
      simp only [errorResult_status] at h200
      exact absurd h200 (by decide)
    · rw [hS]
      simp only [successResult_headers]
      decide

/-- C8 witness: an undefined path falls through to the viewer and the
stream response of a concrete request carries `Connection: close`. -/
theorem routing_and_stream_headers_witness :
    route "/other" = RouteAction.viewer ∧
    getHeader (streamWindow "Firefox" envNoMatch).headers "Connection" =
      some "close" :=
  ⟨routing_and_stream_headers.2.1 "/other" (by decide),
   (routing_and_stream_headers.2.2.1 "Firefox" envNoMatch).2⟩

/-- C9: every 500 response of the stream endpoint still carries the
cache-control, connection-close and pragma headers set up-front for the
stream, with only the content type overridden by the error writer. -/
theorem error_response_headers (n : String) (env : Env)
    (h : (streamWindow n env).status = 500) :
    getHeader (streamWindow n env).headers "Cache-Control" =
      some "no-cache, no-store, must-revalidate" ∧
    getHeader (streamWindow n env).headers "Connection" = some "close" ∧
    getHeader (streamWindow n env).headers "Pragma" = some "no-cache" ∧
    getHeader (streamWindow n env).headers "Content-Type" =
      some "text/plain; charset=utf-8" := by
  rcases streamWindow_branches n env with ⟨msg, hE⟩ | ⟨out, hx, hw, hh, hS⟩
  · rw [hE]
    simp only [errorResult_headers]
    exact ⟨by decide, by decide, by decide, by decide⟩
  · rw [hS] at h
    simp only [successResult_status] at h
    exact absurd h (by decide)

/-- C9 witness. -/
theorem error_response_headers_witness :
    getHeader (streamWindow "Firefox" envNoMatch).headers "Cache-Control" =
      some "no-cache, no-store, must-revalidate" ∧
    getHeader (streamWindow "Firefox" envNoMatch).headers "Connection" =
      some "close" ∧
    getHeader (streamWindow "Firefox" envNoMatch).headers "Pragma" =
      some "no-cache" ∧
    getHeader (streamWindow "Firefox" envNoMatch).headers "Content-Type" =
      some "text/plain; charset=utf-8" :=
  error_response_headers "Firefox" envNoMatch (by decide)
